import Mathlib

/-!
Shallow embedding of `purecloudwallstats` (src/main.go): the interval-polling
and metric-reconciliation loop.  Go `float64`/`float32` values are modelled as
`ℚ` (the program only copies these values and converts them to `int`; it never
performs float arithmetic on them), Go `int` as `ℤ`, Go `time.Time` and
`time.Duration` as nanosecond counts in `ℕ`.  A Go `panic` is modelled as the
`Except.error` branch of the corresponding function, and the fact that an
unrecovered panic in the polling goroutine terminates the whole process is
modelled by `processSurvives`.
-/

set_option autoImplicit false

namespace WallStats

/-- Go conversion `int(x)` from a floating value: truncation toward zero. -/
def goInt (q : ℚ) : ℤ := if q < 0 then ⌈q⌉ else ⌊q⌋

/-- Field set of `metric.Stats` in the purecloud response types
(`Count`, `Sum`, `Max`, `Ratio`, `Current`). -/
structure StatsValue where
  count : ℚ := 0
  sum : ℚ := 0
  max : ℚ := 0
  ratio : ℚ := 0
  current : ℚ := 0
  deriving DecidableEq, Repr

/-- One named metric with its stats, as it appears in both response shapes. -/
structure MetricEntry where
  metric : String
  stats : StatsValue
  deriving DecidableEq, Repr

/-- The `(QueueID, MediaType)` grouping key of a result (`result.Group`). -/
structure ResultGroup where
  queueID : String
  mediaType : String
  deriving DecidableEq, Repr

/-- One data bucket of an aggregate result (`data` with its `Metrics`). -/
structure AggDataBucket where
  metrics : List MetricEntry
  deriving DecidableEq, Repr

/-- One grouping of `purecloud.AggregateQueryResponse.Results`. -/
structure AggResult where
  group : ResultGroup
  data : List AggDataBucket
  deriving DecidableEq, Repr

/-- `purecloud.AggregateQueryResponse`. -/
structure AggregateQueryResponse where
  results : List AggResult
  deriving DecidableEq, Repr

/-- One grouping of `purecloud.ObservationQueryResponse.Results`: observation
results carry a flat metric list. -/
structure ObsResult where
  group : ResultGroup
  data : List MetricEntry
  deriving DecidableEq, Repr

/-- `purecloud.ObservationQueryResponse`. -/
structure ObservationQueryResponse where
  results : List ObsResult
  deriving DecidableEq, Repr

/-- The per-key statistics row built by `queryAndWriteQueueStatsToDb`:
exactly the local variables declared at the top of the per-key loop
(src/main.go lines 229-234), all zero-initialised each iteration. -/
structure StatRow where
  oInteracting : ℤ := 0
  oWaiting : ℤ := 0
  nError : ℤ := 0
  nOffered : ℤ := 0
  nOutboundAbandoned : ℤ := 0
  nOutboundAttempted : ℤ := 0
  nOutboundConnected : ℤ := 0
  nTransferred : ℤ := 0
  nOverSLA : ℤ := 0
  nAbandon : ℤ := 0
  nAcd : ℤ := 0
  nAcw : ℤ := 0
  nAgentResponseTime : ℤ := 0
  nAnswered : ℤ := 0
  nHandle : ℤ := 0
  nHeld : ℤ := 0
  nHeldComplete : ℤ := 0
  nIvr : ℤ := 0
  nTalk : ℤ := 0
  nTalkComplete : ℤ := 0
  nUserResponseTime : ℤ := 0
  nWait : ℤ := 0
  tAbandon : ℚ := 0
  mtAbandon : ℚ := 0
  tAcd : ℚ := 0
  mtAcd : ℚ := 0
  tAcw : ℚ := 0
  mtAcw : ℚ := 0
  tAgentResponseTime : ℚ := 0
  mtAgentResponseTime : ℚ := 0
  tAnswered : ℚ := 0
  mtAnswered : ℚ := 0
  tHandle : ℚ := 0
  mtHandle : ℚ := 0
  tHeld : ℚ := 0
  mtHeld : ℚ := 0
  tHeldComplete : ℚ := 0
  mtHeldComplete : ℚ := 0
  tIvr : ℚ := 0
  mtIvr : ℚ := 0
  tTalk : ℚ := 0
  mtTalk : ℚ := 0
  tTalkComplete : ℚ := 0
  mtTalkComplete : ℚ := 0
  tUserResponseTime : ℚ := 0
  mtUserResponseTime : ℚ := 0
  tWait : ℚ := 0
  mtWait : ℚ := 0
  oServiceLevel : ℚ := 0
  oServiceTarget : ℚ := 0

/-- The switch over aggregate metric names (src/main.go lines 242-317),
in source order.  The `default` branch is the Go `panic`, modelled as
`Except.error` with the panic message. -/
def applyAggMetric (row : StatRow) (m : MetricEntry) : Except String StatRow :=
  if m.metric = "nError" then .ok { row with nError := goInt m.stats.count }
  else if m.metric = "nOffered" then .ok { row with nOffered := goInt m.stats.count }
  else if m.metric = "nOutboundAbandoned" then .ok { row with nOutboundAbandoned := goInt m.stats.count }
  else if m.metric = "nOutboundAttempted" then .ok { row with nOutboundAttempted := goInt m.stats.count }
  else if m.metric = "nOutboundConnected" then .ok { row with nOutboundConnected := goInt m.stats.count }
  else if m.metric = "nTransferred" then .ok { row with nTransferred := goInt m.stats.count }
  else if m.metric = "nOverSla" then .ok { row with nOverSLA := goInt m.stats.count }
  else if m.metric = "oInteracting" then .ok row
  else if m.metric = "oServiceLevel" then .ok { row with oServiceLevel := m.stats.ratio }
  else if m.metric = "oServiceTarget" then .ok { row with oServiceTarget := m.stats.current }
  else if m.metric = "oWaiting" then .ok row
  else if m.metric = "tAbandon" then .ok { row with tAbandon := m.stats.sum, mtAbandon := m.stats.max, nAbandon := goInt m.stats.count }
  else if m.metric = "tAcd" then .ok { row with tAcd := m.stats.sum, mtAcd := m.stats.max, nAcd := goInt m.stats.count }
  else if m.metric = "tAcw" then .ok { row with tAcw := m.stats.sum, mtAcw := m.stats.max, nAcw := goInt m.stats.count }
  else if m.metric = "tAgentResponseTime" then .ok { row with tAgentResponseTime := m.stats.sum, mtAgentResponseTime := m.stats.max, nAgentResponseTime := goInt m.stats.count }
  else if m.metric = "tAnswered" then .ok { row with tAnswered := m.stats.sum, mtAnswered := m.stats.max, nAnswered := goInt m.stats.count }
  else if m.metric = "tHandle" then .ok { row with tHandle := m.stats.sum, mtHandle := m.stats.max, nHandle := goInt m.stats.count }
  else if m.metric = "tHeld" then .ok { row with tHeld := m.stats.sum, mtHeld := m.stats.max, nHeld := goInt m.stats.count }
  else if m.metric = "tHeldComplete" then .ok { row with tHeldComplete := m.stats.sum, mtHeldComplete := m.stats.max, nHeldComplete := goInt m.stats.count }
  else if m.metric = "tIvr" then .ok { row with tIvr := m.stats.sum, mtIvr := m.stats.max, nIvr := goInt m.stats.count }
  else if m.metric = "tTalk" then .ok { row with tTalk := m.stats.sum, mtTalk := m.stats.max, nTalk := goInt m.stats.count }
  else if m.metric = "tTalkComplete" then .ok { row with tTalkComplete := m.stats.sum, mtTalkComplete := m.stats.max, nTalkComplete := goInt m.stats.count }
  else if m.metric = "tUserResponseTime" then .ok { row with tUserResponseTime := m.stats.sum, mtUserResponseTime := m.stats.max, nUserResponseTime := goInt m.stats.count }
  else if m.metric = "tWait" then .ok { row with tWait := m.stats.sum, mtWait := m.stats.max, nWait := goInt m.stats.count }
  else .error ("Unrecognized metric " ++ m.metric)

/-- The metric names recognized by the aggregate switch (every non-default
case label of src/main.go lines 242-317). -/
def aggMetricNames : List String :=
  ["nError", "nOffered", "nOutboundAbandoned", "nOutboundAttempted",
   "nOutboundConnected", "nTransferred", "nOverSla", "oInteracting",
   "oServiceLevel", "oServiceTarget", "oWaiting", "tAbandon", "tAcd", "tAcw",
   "tAgentResponseTime", "tAnswered", "tHandle", "tHeld", "tHeldComplete",
   "tIvr", "tTalk", "tTalkComplete", "tUserResponseTime", "tWait"]

/-- The switch over observation metric names (src/main.go lines 330-337). -/
def applyObsMetric (row : StatRow) (m : MetricEntry) : Except String StatRow :=
  if m.metric = "oInteracting" then .ok { row with oInteracting := goInt m.stats.count }
  else if m.metric = "oWaiting" then .ok { row with oWaiting := goInt m.stats.count }
  else .error ("Unrecognized metric " ++ m.metric)

/-- The metric names recognized by the observation switch. -/
def obsMetricNames : List String := ["oInteracting", "oWaiting"]

/-- Process all metrics of one list in order, stopping at the first
unrecognized name (the Go `panic` aborts the iteration). -/
def applyMetricList (apply : StatRow → MetricEntry → Except String StatRow)
    (row : StatRow) : List MetricEntry → Except String StatRow
  | [] => .ok row
  | m :: rest => do
    let r ← apply row m
    applyMetricList apply r rest

/-- The nested loop `for _, data := range result.Data` over every data bucket
of a matched aggregate grouping (src/main.go lines 240-319): every bucket is
processed, in order. -/
def applyAggData (row : StatRow) : List AggDataBucket → Except String StatRow
  | [] => .ok row
  | d :: rest => do
    let r ← applyMetricList applyAggMetric row d.metrics
    applyAggData r rest

/-- The scan `for _, result := range aggResp.Results` (src/main.go lines
237-323): take the first grouping whose key matches, process its data, then
`break`. -/
def scanAgg (queueID mediaType : String) (row : StatRow) :
    List AggResult → Except String StatRow
  | [] => .ok row
  | r :: rest =>
    if r.group.queueID = queueID ∧ r.group.mediaType = mediaType then
      applyAggData row r.data
    else scanAgg queueID mediaType row rest

/-- The scan `for _, result := range obsResp.Results` (src/main.go lines
326-342): first matching grouping wins, then `break`. -/
def scanObs (queueID mediaType : String) (row : StatRow) :
    List ObsResult → Except String StatRow
  | [] => .ok row
  | r :: rest =>
    if r.group.queueID = queueID ∧ r.group.mediaType = mediaType then
      applyMetricList applyObsMetric row r.data
    else scanObs queueID mediaType row rest

/-- Build the row for one `(queueID, mediaType)` key: zero-initialised locals,
then the aggregate scan, then the observation scan (one iteration of the
per-key loop of src/main.go lines 225-343, up to the database write). -/
def buildRow (queueID mediaType : String) (agg : AggregateQueryResponse)
    (obs : ObservationQueryResponse) : Except String StatRow := do
  let row ← scanAgg queueID mediaType {} agg.results
  scanObs queueID mediaType row obs.results

/-- The media types supported by the program (src/main.go line 43). -/
def supportedMediaType : List String := ["voice", "chat", "email"]

/-- The full cross-product of configured queue IDs and supported media types,
in the iteration order of the nested loops of src/main.go lines 225-227. -/
def keyList (queues : List String) : List (String × String) :=
  (queues.map (fun q => supportedMediaType.map (fun m => (q, m)))).flatten

/-- One reconciled row tagged with its key. -/
structure KeyRow where
  queueID : String
  mediaType : String
  row : StatRow

/-- Build the rows of a list of keys in order; an unrecognized metric name
(the Go panic) aborts the whole run. -/
def reconcileKeys (agg : AggregateQueryResponse)
    (obs : ObservationQueryResponse) :
    List (String × String) → Except String (List KeyRow)
  | [] => .ok []
  | (q, m) :: rest => do
    let row ← buildRow q m agg obs
    let others ← reconcileKeys agg obs rest
    .ok (KeyRow.mk q m row :: others)

/-- The pure reconciliation part of `queryAndWriteQueueStatsToDb`: build the
row of every tracked key in loop order.  Row construction is independent of
the interleaved database writes, which can only abort the loop early. -/
def reconcile (queues : List String) (agg : AggregateQueryResponse)
    (obs : ObservationQueryResponse) : Except String (List KeyRow) :=
  reconcileKeys agg obs (keyList queues)

/-- Outcome of one poll cycle of `queryAndWriteQueueStatsToDb`. -/
inductive CycleOutcome where
  /-- The function ran to completion and returned `nil`. -/
  | ok : CycleOutcome
  /-- The function returned an error (src/main.go lines 359-361): the caller
  at line 459-461 prints it and the ticker loop continues. -/
  | errReturn : String → CycleOutcome
  /-- A Go `panic` fired (src/main.go line 316 or 336); there is no `recover`,
  so the goroutine unwinds and the whole process terminates. -/
  | panicked : String → CycleOutcome
  deriving DecidableEq, Repr

/-- Whether the process is still alive after a cycle with this outcome: an
unrecovered panic in the polling goroutine kills the whole Go process, while
a returned error is printed by the loop which then waits for the next tick. -/
def processSurvives : CycleOutcome → Bool
  | .panicked _ => false
  | _ => true

/-- Whether the polling loop proceeds to the next tick after this outcome. -/
def loopContinues : CycleOutcome → Bool
  | .panicked _ => false
  | _ => true

/-- The per-key loop of `queryAndWriteQueueStatsToDb` (src/main.go lines
225-364) including the database writes.  `write` models `db.Exec` of the
UPDATE statement for one key (`none` = success, `some e` = error).  Returns
the outcome together with the list of keys whose write was attempted, in
order.  A write error causes `return err` (remaining keys are skipped); an
unrecognized metric name in a scanned grouping is a panic. -/
def runKeys (agg : AggregateQueryResponse) (obs : ObservationQueryResponse)
    (write : String → String → StatRow → Option String) :
    List (String × String) → CycleOutcome × List (String × String)
  | [] => (.ok, [])
  | (q, m) :: rest =>
    match buildRow q m agg obs with
    | .error s => (.panicked s, [])
    | .ok row =>
      match write q m row with
      | some e => (.errReturn e, [(q, m)])
      | none =>
        let next := runKeys agg obs write rest
        (next.1, (q, m) :: next.2)

/-- The write-and-reconcile phase of one poll cycle over the configured
queues (the body of `queryAndWriteQueueStatsToDb` after the two queries
succeeded). -/
def runCycle (queues : List String) (agg : AggregateQueryResponse)
    (obs : ObservationQueryResponse)
    (write : String → String → StatRow → Option String) :
    CycleOutcome × List (String × String) :=
  runKeys agg obs write (keyList queues)

/-! Interval clock, configuration validation and query building. -/

/-- Nanoseconds in one minute (`time.Minute`). -/
def nsPerMinute : ℕ := 60 * 1000000000

/-- The map `supportedGranularity` (src/main.go line 41): granularity token
to `time.Duration` in nanoseconds; lookup yields `none` for a missing key. -/
def supportedGranularity (g : String) : Option ℕ :=
  if g = "PT30M" then some (30 * nsPerMinute)
  else if g = "PT60M" then some (60 * nsPerMinute)
  else if g = "PT1H" then some (60 * nsPerMinute)
  else none

/-- Go `time.Time.Truncate`: round `t` down to a multiple of `d` since the
zero time (`t` in nanoseconds since the zero time; `d ≤ 0` returns `t`
unchanged). -/
def timeTruncate (t d : ℕ) : ℕ :=
  if d = 0 then t else t - t % d

/-- The interval computation of the ticker goroutine (src/main.go lines
456-457): `startInterval = now.Truncate(d)`, `endInterval = start + d`. -/
def currentInterval (now d : ℕ) : ℕ × ℕ :=
  (timeTruncate now d, timeTruncate now d + d)

/-- The validation stage of `loadAppConfig` (src/main.go lines 139-149),
applied to the decoded granularity token and poll frequency (the `float32`
config field, modelled as `ℚ`).  Returns the error, or `none` on success. -/
def loadAppConfigValidate (granularity : String) (pollFrequencySeconds : ℚ) :
    Option String :=
  if (supportedGranularity granularity).isNone then
    some "Invalid granularity. Use PT30M, PT60M or PT1H"
  else if goInt pollFrequencySeconds ≤ 0 ∨ goInt pollFrequencySeconds > 60 then
    some "Invalid frequency. Keep it within 60 seconds"
  else none

/-- The gating of `main` (src/main.go lines 49-83): `startGrabbingPureCloudStats`
is reached only when config loading, database open, ping, login and table
preparation all succeed; a config validation error returns first. -/
def mainReachesPollingLoop (granularity : String) (pollFrequencySeconds : ℚ)
    (dbOpenOk dbPingOk loginOk prepareOk : Bool) : Bool :=
  (loadAppConfigValidate granularity pollFrequencySeconds).isNone
    && dbOpenOk && dbPingOk && loginOk && prepareOk

/-- `purecloud.AnalyticsQueryPredicate`. -/
structure AnalyticsQueryPredicate where
  dimension : String
  value : String
  deriving DecidableEq, Repr

/-- `purecloud.AnalyticsQueryClause`. -/
structure AnalyticsQueryClause where
  type : String
  predicates : List AnalyticsQueryPredicate
  deriving DecidableEq, Repr

/-- `purecloud.AnalyticsQueryFilter`. -/
structure AnalyticsQueryFilter where
  type : String
  clauses : List AnalyticsQueryClause
  deriving DecidableEq, Repr

/-- `purecloud.AggregationQuery` (the fields `queryQueueIntervalStats`
populates). -/
structure AggregationQuery where
  interval : String
  granularity : String
  filter : AnalyticsQueryFilter
  groupBy : List String
  deriving DecidableEq, Repr

/-- `purecloud.ObservationQuery` (only its filter is populated). -/
structure ObservationQuery where
  filter : AnalyticsQueryFilter
  deriving DecidableEq, Repr

/-- The predicate-appending loops of `queryQueueIntervalStats` (src/main.go
lines 408-417): starting from a nil slice, append one predicate per value. -/
def appendPredicates (dimension : String) (values : List String) :
    List AnalyticsQueryPredicate :=
  values.foldl (fun ps v => ps ++ [AnalyticsQueryPredicate.mk dimension v]) []

/-- The query construction of `queryQueueIntervalStats` (src/main.go lines
397-421), with the two formatted interval timestamps passed in as strings.
Building is total: there is no error path before the queries are sent. -/
def buildAggQuery (startStr endStr granularity : String)
    (queues : List String) : AggregationQuery :=
  let mediaTypeClause : AnalyticsQueryClause :=
    { type := "or", predicates := appendPredicates "mediaType" supportedMediaType }
  let queueIDClause : AnalyticsQueryClause :=
    { type := "or", predicates := appendPredicates "queueId" queues }
  { interval := startStr ++ "/" ++ endStr
    granularity := granularity
    filter := { type := "and", clauses := [mediaTypeClause, queueIDClause] }
    groupBy := ["queueId"] }

/-- The observation query reuses the aggregate query's filter (src/main.go
lines 430-431). -/
def buildObsQuery (startStr endStr granularity : String)
    (queues : List String) : ObservationQuery :=
  { filter := (buildAggQuery startStr endStr granularity queues).filter }

/-! Concrete fixtures used by witnesses and counterexamples. -/

/-- An empty aggregate response. -/
def emptyAgg : AggregateQueryResponse := { results := [] }

/-- An empty observation response. -/
def emptyObs : ObservationQueryResponse := { results := [] }

/-- Aggregate response with one grouping for key `(Q1, voice)` holding a
single `tAnswered` metric with sum 300, max 120, count 5. -/
def aggAnswered : AggregateQueryResponse :=
  { results := [ { group := { queueID := "Q1", mediaType := "voice" },
                   data := [ { metrics := [ { metric := "tAnswered",
                                              stats := { count := 5, sum := 300, max := 120 } } ] } ] } ] }

/-- Aggregate response whose only grouping (key `(Q1, voice)`) carries a
metric name outside the recognized set. -/
def aggUnknownMetric : AggregateQueryResponse :=
  { results := [ { group := { queueID := "Q1", mediaType := "voice" },
                   data := [ { metrics := [ { metric := "bogus", stats := {} } ] } ] } ] }

/-- Aggregate response with one grouping for `(Q1, voice)` holding two data
buckets that both carry a `tAnswered` metric, with different stats. -/
def aggTwoBuckets : AggregateQueryResponse :=
  { results := [ { group := { queueID := "Q1", mediaType := "voice" },
                   data := [ { metrics := [ { metric := "tAnswered",
                                              stats := { count := 5, sum := 300, max := 120 } } ] },
                             { metrics := [ { metric := "tAnswered",
                                              stats := { count := 1, sum := 999, max := 1 } } ] } ] } ] }

/-- An aggregate grouping for `(Q1, voice)` carrying no data buckets. -/
def aggResVoiceEmpty : AggResult :=
  { group := { queueID := "Q1", mediaType := "voice" }, data := [] }

/-- A second aggregate grouping for the same key `(Q1, voice)`. -/
def aggResVoiceOffered : AggResult :=
  { group := { queueID := "Q1", mediaType := "voice" },
    data := [ { metrics := [ { metric := "nOffered", stats := { count := 7 } } ] } ] }

/-- An observation grouping for `(Q1, voice)` carrying no metrics. -/
def obsResVoiceEmpty : ObsResult :=
  { group := { queueID := "Q1", mediaType := "voice" }, data := [] }

/-- A second observation grouping for the same key `(Q1, voice)`. -/
def obsResVoiceWaiting : ObsResult :=
  { group := { queueID := "Q1", mediaType := "voice" },
    data := [ { metric := "oWaiting", stats := { count := 2 } } ] }

/-- A write function that fails exactly on media type `chat`. -/
def writeFailOnChat : String → String → StatRow → Option String :=
  fun _ m _ => if m = "chat" then some "write failed" else none

/-- A write function that never fails. -/
def writeOk : String → String → StatRow → Option String := fun _ _ _ => none

/-! Helper lemmas. -/

theorem applyAggMetric_ok_of_mem (row : StatRow) (m : MetricEntry)
    (h : m.metric ∈ aggMetricNames) :
    ∃ r, applyAggMetric row m = .ok r := by
  simp only [aggMetricNames, List.mem_cons, List.not_mem_nil, or_false] at h
  rcases h with h|h|h|h|h|h|h|h|h|h|h|h|h|h|h|h|h|h|h|h|h|h|h|h <;>
    simp [applyAggMetric, h]

theorem applyObsMetric_ok_of_mem (row : StatRow) (m : MetricEntry)
    (h : m.metric ∈ obsMetricNames) :
    ∃ r, applyObsMetric row m = .ok r := by
  simp only [obsMetricNames, List.mem_cons, List.not_mem_nil, or_false] at h
  rcases h with h|h <;> simp [applyObsMetric, h]

theorem applyMetricList_ok (apply : StatRow → MetricEntry → Except String StatRow)
    (names : List String)
    (hap : ∀ (row : StatRow) (m : MetricEntry), m.metric ∈ names →
      ∃ r, apply row m = .ok r) :
    ∀ (ms : List MetricEntry), (∀ m ∈ ms, m.metric ∈ names) →
      ∀ row, ∃ r, applyMetricList apply row ms = .ok r := by
  intro ms
  induction ms with
  | nil => intro _ row; exact ⟨row, rfl⟩
  | cons m rest ih =>
    intro hmem row
    obtain ⟨r1, hr1⟩ := hap row m (hmem m (List.mem_cons_self m rest))
    obtain ⟨r2, hr2⟩ := ih (fun x hx => hmem x (List.mem_cons_of_mem m hx)) r1
    refine ⟨r2, ?_⟩
    simp only [applyMetricList, hr1]
    exact hr2

theorem applyAggData_ok (ds : List AggDataBucket)
    (h : ∀ d ∈ ds, ∀ m ∈ d.metrics, m.metric ∈ aggMetricNames) :
    ∀ row, ∃ r, applyAggData row ds = .ok r := by
  induction ds with
  | nil => intro row; exact ⟨row, rfl⟩
  | cons d rest ih =>
    intro row
    obtain ⟨r1, hr1⟩ := applyMetricList_ok applyAggMetric aggMetricNames
      applyAggMetric_ok_of_mem d.metrics (h d (List.mem_cons_self d rest)) row
    obtain ⟨r2, hr2⟩ := ih (fun x hx => h x (List.mem_cons_of_mem d hx)) r1
    refine ⟨r2, ?_⟩
    simp only [applyAggData, hr1]
    exact hr2

theorem scanAgg_ok (q m : String) (results : List AggResult)
    (h : ∀ r ∈ results, ∀ d ∈ r.data, ∀ x ∈ d.metrics, x.metric ∈ aggMetricNames) :
    ∀ row, ∃ r2, scanAgg q m row results = .ok r2 := by
  induction results with
  | nil => intro row; exact ⟨row, rfl⟩
  | cons r rest ih =>
    intro row
    by_cases hm : r.group.queueID = q ∧ r.group.mediaType = m
    · obtain ⟨r2, hr2⟩ := applyAggData_ok r.data (h r (List.mem_cons_self r rest)) row
      exact ⟨r2, by simp [scanAgg, hm, hr2]⟩
    · obtain ⟨r2, hr2⟩ := ih (fun x hx => h x (List.mem_cons_of_mem r hx)) row
      exact ⟨r2, by simp [scanAgg, hm, hr2]⟩

theorem scanObs_ok (q m : String) (results : List ObsResult)
    (h : ∀ r ∈ results, ∀ x ∈ r.data, x.metric ∈ obsMetricNames) :
    ∀ row, ∃ r2, scanObs q m row results = .ok r2 := by
  induction results with
  | nil => intro row; exact ⟨row, rfl⟩
  | cons r rest ih =>
    intro row
    by_cases hm : r.group.queueID = q ∧ r.group.mediaType = m
    · obtain ⟨r2, hr2⟩ := applyMetricList_ok applyObsMetric obsMetricNames
        applyObsMetric_ok_of_mem r.data (h r (List.mem_cons_self r rest)) row
      exact ⟨r2, by simp [scanObs, hm, hr2]⟩
    · obtain ⟨r2, hr2⟩ := ih (fun x hx => h x (List.mem_cons_of_mem r hx)) row
      exact ⟨r2, by simp [scanObs, hm, hr2]⟩

theorem buildRow_ok (q m : String) (agg : AggregateQueryResponse)
    (obs : ObservationQueryResponse)
    (hagg : ∀ r ∈ agg.results, ∀ d ∈ r.data, ∀ x ∈ d.metrics, x.metric ∈ aggMetricNames)
    (hobs : ∀ r ∈ obs.results, ∀ x ∈ r.data, x.metric ∈ obsMetricNames) :
    ∃ r2, buildRow q m agg obs = .ok r2 := by
  obtain ⟨r1, hr1⟩ := scanAgg_ok q m agg.results hagg {}
  obtain ⟨r2, hr2⟩ := scanObs_ok q m obs.results hobs r1
  refine ⟨r2, ?_⟩
  simp only [buildRow, hr1]
  exact hr2

theorem reconcileKeys_ok (agg : AggregateQueryResponse)
    (obs : ObservationQueryResponse) (ks : List (String × String))
    (h : ∀ k ∈ ks, ∃ r, buildRow k.1 k.2 agg obs = .ok r) :
    ∃ rows, reconcileKeys agg obs ks = .ok rows ∧
      rows.length = ks.length ∧
      rows.map (fun kr => (kr.queueID, kr.mediaType)) = ks ∧
      ∀ kr ∈ rows, buildRow kr.queueID kr.mediaType agg obs = .ok kr.row := by
  induction ks with
  | nil => exact ⟨[], rfl, rfl, rfl, by simp⟩
  | cons k rest ih =>
    obtain ⟨r, hr⟩ := h k (List.mem_cons_self k rest)
    obtain ⟨rows, hrows, hlen, hmap, hall⟩ :=
      ih (fun x hx => h x (List.mem_cons_of_mem k hx))
    refine ⟨KeyRow.mk k.1 k.2 r :: rows, ?_, by simp [hlen], by simp [hmap], ?_⟩
    · simp only [reconcileKeys, hr, hrows]
      rfl
    · intro kr hkr
      rcases List.mem_cons.mp hkr with h1 | h2
      · subst h1; exact hr
      · exact hall kr h2

theorem scanAgg_noMatch (q m : String) (results : List AggResult)
    (h : ∀ r ∈ results, ¬(r.group.queueID = q ∧ r.group.mediaType = m)) :
    ∀ row, scanAgg q m row results = .ok row := by
  induction results with
  | nil => intro row; rfl
  | cons r rest ih =>
    intro row
    have hr := h r (List.mem_cons_self r rest)
    simp [scanAgg, hr, ih (fun x hx => h x (List.mem_cons_of_mem r hx)) row]

theorem scanObs_noMatch (q m : String) (results : List ObsResult)
    (h : ∀ r ∈ results, ¬(r.group.queueID = q ∧ r.group.mediaType = m)) :
    ∀ row, scanObs q m row results = .ok row := by
  induction results with
  | nil => intro row; rfl
  | cons r rest ih =>
    intro row
    have hr := h r (List.mem_cons_self r rest)
    simp [scanObs, hr, ih (fun x hx => h x (List.mem_cons_of_mem r hx)) row]

theorem applyAggData_append (ds1 ds2 : List AggDataBucket) :
    ∀ row, applyAggData row (ds1 ++ ds2) =
      (applyAggData row ds1).bind (fun r => applyAggData r ds2) := by
  induction ds1 with
  | nil => intro row; rfl
  | cons d rest ih =>
    intro row
    cases h : applyMetricList applyAggMetric row d.metrics with
    | error s =>
      simp only [List.cons_append, applyAggData, h]
      rfl
    | ok r =>
      simp only [List.cons_append, applyAggData, h]
      exact ih r

theorem scanAgg_append_of_match (q m : String) (xs ys : List AggResult) :
    (∃ r ∈ xs, r.group.queueID = q ∧ r.group.mediaType = m) →
    ∀ row, scanAgg q m row (xs ++ ys) = scanAgg q m row xs := by
  induction xs with
  | nil => intro h; simp at h
  | cons r rest ih =>
    intro h row
    by_cases hm : r.group.queueID = q ∧ r.group.mediaType = m
    · simp only [List.cons_append, scanAgg, if_pos hm]
    · have hrest : ∃ x ∈ rest, x.group.queueID = q ∧ x.group.mediaType = m := by
        rcases h with ⟨x, hx, hxq⟩
        rcases List.mem_cons.mp hx with h1 | h2
        · subst h1; exact absurd hxq hm
        · exact ⟨x, h2, hxq⟩
      simp only [List.cons_append, scanAgg, if_neg hm]
      exact ih hrest row

theorem scanObs_append_of_match (q m : String) (xs ys : List ObsResult) :
    (∃ r ∈ xs, r.group.queueID = q ∧ r.group.mediaType = m) →
    ∀ row, scanObs q m row (xs ++ ys) = scanObs q m row xs := by
  induction xs with
  | nil => intro h; simp at h
  | cons r rest ih =>
    intro h row
    by_cases hm : r.group.queueID = q ∧ r.group.mediaType = m
    · simp only [List.cons_append, scanObs, if_pos hm]
    · have hrest : ∃ x ∈ rest, x.group.queueID = q ∧ x.group.mediaType = m := by
        rcases h with ⟨x, hx, hxq⟩
        rcases List.mem_cons.mp hx with h1 | h2
        · subst h1; exact absurd hxq hm
        · exact ⟨x, h2, hxq⟩
      simp only [List.cons_append, scanObs, if_neg hm]
      exact ih hrest row

theorem buildRow_noAggMatch (q m : String) (agg : AggregateQueryResponse)
    (obs : ObservationQueryResponse)
    (h : ∀ r ∈ agg.results, ¬(r.group.queueID = q ∧ r.group.mediaType = m)) :
    buildRow q m agg obs = scanObs q m {} obs.results := by
  simp only [buildRow, scanAgg_noMatch q m agg.results h]
  rfl

theorem buildRow_noObsMatch (q m : String) (agg : AggregateQueryResponse)
    (obs : ObservationQueryResponse)
    (h : ∀ r ∈ obs.results, ¬(r.group.queueID = q ∧ r.group.mediaType = m)) :
    buildRow q m agg obs = scanAgg q m {} agg.results := by
  cases hs : scanAgg q m {} agg.results with
  | error s =>
    simp only [buildRow, hs]
    rfl
  | ok r =>
    simp only [buildRow, hs]
    exact scanObs_noMatch q m obs.results h r

theorem timeTruncate_spec (t d : ℕ) (hd : d ≠ 0) :
    timeTruncate t d = t - t % d ∧ timeTruncate t d % d = 0 ∧
      timeTruncate t d ≤ t ∧ t < timeTruncate t d + d := by
  have h1 := Nat.div_add_mod t d
  have h2 : t % d < d := Nat.mod_lt t (Nat.pos_of_ne_zero hd)
  have he : timeTruncate t d = t - t % d := by
    unfold timeTruncate
    rw [if_neg hd]
  refine ⟨he, ?_, ?_, ?_⟩
  · rw [he]
    have h3 : t - t % d = d * (t / d) := by omega
    rw [h3]
    exact Nat.mul_mod_right _ _
  · rw [he]; exact Nat.sub_le _ _
  · rw [he]; omega

theorem supportedGranularity_pos (g : String) (d : ℕ)
    (h : supportedGranularity g = some d) : d ≠ 0 := by
  unfold supportedGranularity at h
  split_ifs at h <;> (injection h with h2; subst h2; norm_num [nsPerMinute])

theorem appendPredicates_eq_map (dimension : String) (values : List String) :
    appendPredicates dimension values =
      values.map (AnalyticsQueryPredicate.mk dimension) := by
  have key : ∀ (vs : List String) (acc : List AnalyticsQueryPredicate),
      vs.foldl (fun ps v => ps ++ [AnalyticsQueryPredicate.mk dimension v]) acc =
        acc ++ vs.map (AnalyticsQueryPredicate.mk dimension) := by
    intro vs
    induction vs with
    | nil => intro acc; simp
    | cons v rest ih => intro acc; simp [ih]
  simpa using key values []

/-! Claim C1. -/

/-- Claim C1, counterexample: with a single tracked queue and a response whose
grouping for key `(Q1, voice)` carries the unrecognized metric name `bogus`,
the cycle ends in a panic, no write is attempted, and — contrary to the
claim — the process does not survive and the polling loop does not continue
to the next tick (the panic in the goroutine is unrecovered). -/
theorem unknownMetric_kills_process_ce :
    runCycle ["Q1"] aggUnknownMetric emptyObs writeOk =
      (.panicked "Unrecognized metric bogus", []) ∧
    processSurvives (runCycle ["Q1"] aggUnknownMetric emptyObs writeOk).1 = false ∧
    loopContinues (runCycle ["Q1"] aggUnknownMetric emptyObs writeOk).1 = false := by
  refine ⟨?_, rfl, rfl⟩
  rfl

/-- Claim C1 (amended): when every per-key write succeeds, an unrecognized
metric name encountered while building some tracked key's row aborts the
cycle's reconciliation with a panic carrying the reported message — and that
panic is fatal to the whole process, not merely to the poll cycle: the
polling loop does not continue. -/
theorem unknownMetric_panic_is_process_fatal
    (ks : List (String × String)) (agg : AggregateQueryResponse)
    (obs : ObservationQueryResponse)
    (write : String → String → StatRow → Option String)
    (hw : ∀ q m r, write q m r = none)
    (h : ∃ k ∈ ks, ∃ s, buildRow k.1 k.2 agg obs = .error s) :
    ∃ s, (runKeys agg obs write ks).1 = .panicked s ∧
      processSurvives (runKeys agg obs write ks).1 = false ∧
      loopContinues (runKeys agg obs write ks).1 = false := by
  induction ks with
  | nil => simp at h
  | cons k rest ih =>
    rcases h with ⟨k2, hk2, s, hs⟩
    rcases List.mem_cons.mp hk2 with h1 | h2
    · subst h1
      obtain ⟨q, m⟩ := k2
      exact ⟨s, by simp [runKeys, hs], by simp [runKeys, hs, processSurvives],
        by simp [runKeys, hs, loopContinues]⟩
    · obtain ⟨q, m⟩ := k
      cases hb : buildRow q m agg obs with
      | error s2 =>
        exact ⟨s2, by simp [runKeys, hb], by simp [runKeys, hb, processSurvives],
          by simp [runKeys, hb, loopContinues]⟩
      | ok row =>
        obtain ⟨s3, hs3, hp, hl⟩ := ih ⟨k2, h2, s, hs⟩
        refine ⟨s3, ?_, ?_, ?_⟩ <;>
          simp [runKeys, hb, hw, hs3, hp, hl, processSurvives, loopContinues]

/-- Claim C1, witness for the amended theorem at a concrete input. -/
theorem unknownMetric_panic_is_process_fatal_witness :
    ∃ s, (runKeys aggUnknownMetric emptyObs writeOk (keyList ["Q1"])).1 = .panicked s ∧
      processSurvives (runKeys aggUnknownMetric emptyObs writeOk (keyList ["Q1"])).1 = false ∧
      loopContinues (runKeys aggUnknownMetric emptyObs writeOk (keyList ["Q1"])).1 = false :=
  unknownMetric_panic_is_process_fatal (keyList ["Q1"]) aggUnknownMetric emptyObs
    writeOk (fun _ _ _ => rfl)
    ⟨("Q1", "voice"), by simp [keyList, supportedMediaType],
      "Unrecognized metric bogus", rfl⟩

/-! Claim C2. -/

/-- Claim C2, counterexample: with tracked queue `Q1` (keys voice, chat,
email in order) and a write that fails on the chat key, the cycle returns the
write error after attempting only the voice and chat writes — the email key's
upsert is never attempted, contrary to the claim. -/
theorem writeError_aborts_cycle_ce :
    runCycle ["Q1"] emptyAgg emptyObs writeFailOnChat =
      (.errReturn "write failed", [("Q1", "voice"), ("Q1", "chat")]) ∧
    ("Q1", "email") ∈ keyList ["Q1"] ∧
    decide (("Q1", "email") ∈ [("Q1", "voice"), ("Q1", "chat")]) = false := by
  exact ⟨rfl, by simp [keyList, supportedMediaType], by decide⟩

/-- Claim C2 (amended): a failure of the per-key upsert for some tracked key
is reported as the cycle's returned error, and it aborts the rest of the
cycle: the keys after the failing one are not attempted in that cycle.  (The
polling loop itself continues at the next tick; only this cycle's remaining
writes are lost.) -/
theorem writeError_skips_remaining_keys
    (ks1 ks2 : List (String × String)) (q m : String)
    (agg : AggregateQueryResponse) (obs : ObservationQueryResponse)
    (write : String → String → StatRow → Option String)
    (e : String) (row : StatRow)
    (h1 : ∀ k ∈ ks1, ∃ r, buildRow k.1 k.2 agg obs = .ok r ∧ write k.1 k.2 r = none)
    (h2 : buildRow q m agg obs = .ok row)
    (h3 : write q m row = some e) :
    runKeys agg obs write (ks1 ++ (q, m) :: ks2) = (.errReturn e, ks1 ++ [(q, m)]) := by
  induction ks1 with
  | nil => simp [runKeys, h2, h3]
  | cons k rest ih =>
    obtain ⟨q2, m2⟩ := k
    obtain ⟨r, hr, hwrt⟩ := h1 (q2, m2) (List.mem_cons_self _ _)
    simp [runKeys, hr, hwrt, ih (fun x hx => h1 x (List.mem_cons_of_mem _ hx))]

/-- Claim C2, witness for the amended theorem at a concrete input: the voice
key builds and writes fine, the chat key's write fails, and the cycle stops
there with the email key unattempted. -/
theorem writeError_skips_remaining_keys_witness :
    runKeys emptyAgg emptyObs writeFailOnChat
        ([("Q1", "voice")] ++ ("Q1", "chat") :: [("Q1", "email")]) =
      (.errReturn "write failed", [("Q1", "voice")] ++ [("Q1", "chat")]) :=
  writeError_skips_remaining_keys [("Q1", "voice")] [("Q1", "email")] "Q1" "chat"
    emptyAgg emptyObs writeFailOnChat "write failed" {}
    (by intro k hk; simp at hk; subst hk; exact ⟨{}, rfl, rfl⟩)
    rfl rfl

/-! Claim C3. -/

/-- Claim C3, counterexample: the responses contain only the tracked key
`(Q1, voice)` (so only keys in `K`, which has three elements), yet because
that grouping carries an unrecognized metric name, reconciliation aborts
with an error instead of producing `|K| = 3` rows. -/
theorem reconcile_unknown_metric_ce :
    reconcile ["Q1"] aggUnknownMetric emptyObs = .error "Unrecognized metric bogus" ∧
    (keyList ["Q1"]).length = 3 ∧
    aggUnknownMetric.results.map (fun r => (r.group.queueID, r.group.mediaType)) =
      [("Q1", "voice")] ∧
    ("Q1", "voice") ∈ keyList ["Q1"] := by
  exact ⟨rfl, rfl, rfl, by simp [keyList, supportedMediaType]⟩

/-- Claim C3 (amended): for every tracked key set `K` (the cross-product of
the configured queues and the three media types) and every pair of responses
whose metric names are all in the recognized sets, reconciliation succeeds
and produces exactly `|K|` rows, one per key in order, each row being exactly
the dispatch of the key's matching groupings over the zero row; a key with no
matching grouping in the aggregate (resp. observation) response gets a row in
which the fields sourced from that response are untouched zeros, and a key
matched by neither response gets the all-zero row — absence is not an
error. -/
theorem reconcile_complete_rows (queues : List String)
    (agg : AggregateQueryResponse) (obs : ObservationQueryResponse)
    (hagg : ∀ r ∈ agg.results, ∀ d ∈ r.data, ∀ x ∈ d.metrics, x.metric ∈ aggMetricNames)
    (hobs : ∀ r ∈ obs.results, ∀ x ∈ r.data, x.metric ∈ obsMetricNames) :
    ∃ rows, reconcile queues agg obs = .ok rows ∧
      rows.length = (keyList queues).length ∧
      rows.map (fun kr => (kr.queueID, kr.mediaType)) = keyList queues ∧
      (∀ kr ∈ rows, buildRow kr.queueID kr.mediaType agg obs = .ok kr.row) ∧
      (∀ q m, (∀ r ∈ agg.results, ¬(r.group.queueID = q ∧ r.group.mediaType = m)) →
        buildRow q m agg obs = scanObs q m {} obs.results) ∧
      (∀ q m, (∀ r ∈ obs.results, ¬(r.group.queueID = q ∧ r.group.mediaType = m)) →
        buildRow q m agg obs = scanAgg q m {} agg.results) ∧
      (∀ q m, (∀ r ∈ agg.results, ¬(r.group.queueID = q ∧ r.group.mediaType = m)) →
        (∀ r ∈ obs.results, ¬(r.group.queueID = q ∧ r.group.mediaType = m)) →
        buildRow q m agg obs = .ok {}) := by
  obtain ⟨rows, hok, hlen, hmap, hall⟩ := reconcileKeys_ok agg obs (keyList queues)
    (fun k _ => buildRow_ok k.1 k.2 agg obs hagg hobs)
  refine ⟨rows, hok, hlen, hmap, hall, ?_, ?_, ?_⟩
  · intro q m h
    exact buildRow_noAggMatch q m agg obs h
  · intro q m h
    exact buildRow_noObsMatch q m agg obs h
  · intro q m ha ho
    rw [buildRow_noAggMatch q m agg obs ha]
    exact scanObs_noMatch q m obs.results ho {}

/-- Claim C3, witness for the amended theorem at a concrete input. -/
theorem reconcile_complete_rows_witness :
    ∃ rows, reconcile ["Q1"] aggAnswered emptyObs = .ok rows ∧
      rows.length = (keyList ["Q1"]).length ∧
      rows.map (fun kr => (kr.queueID, kr.mediaType)) = keyList ["Q1"] ∧
      (∀ kr ∈ rows, buildRow kr.queueID kr.mediaType aggAnswered emptyObs = .ok kr.row) ∧
      (∀ q m, (∀ r ∈ aggAnswered.results, ¬(r.group.queueID = q ∧ r.group.mediaType = m)) →
        buildRow q m aggAnswered emptyObs = scanObs q m {} emptyObs.results) ∧
      (∀ q m, (∀ r ∈ emptyObs.results, ¬(r.group.queueID = q ∧ r.group.mediaType = m)) →
        buildRow q m aggAnswered emptyObs = scanAgg q m {} aggAnswered.results) ∧
      (∀ q m, (∀ r ∈ aggAnswered.results, ¬(r.group.queueID = q ∧ r.group.mediaType = m)) →
        (∀ r ∈ emptyObs.results, ¬(r.group.queueID = q ∧ r.group.mediaType = m)) →
        buildRow q m aggAnswered emptyObs = .ok {}) :=
  reconcile_complete_rows ["Q1"] aggAnswered emptyObs (by decide) (by decide)

/-! Claim C4. -/

/-- Claim C4: for every instant `t` and every supported granularity token
(mapping to a duration `d` of 30 or 60 minutes), the computed interval's
start is `t` truncated down to a multiple of `d` from the fixed epoch (the
zero time): it is divisible by `d`, is the greatest such multiple not above
`t`, and the end is exactly `start + d`. -/
theorem currentInterval_truncation (t : ℕ) (g : String) (d : ℕ)
    (h : supportedGranularity g = some d) :
    currentInterval t d = (t - t % d, t - t % d + d) ∧
    (currentInterval t d).1 % d = 0 ∧
    (currentInterval t d).1 ≤ t ∧ t < (currentInterval t d).1 + d ∧
    (currentInterval t d).2 - (currentInterval t d).1 = d := by
  have hd := supportedGranularity_pos g d h
  obtain ⟨he, h0, h1, h2⟩ := timeTruncate_spec t d hd
  refine ⟨?_, h0, h1, h2, ?_⟩
  · unfold currentInterval
    rw [he]
  · show timeTruncate t d + d - timeTruncate t d = d
    omega

/-- Claim C4, witness at a concrete instant and the 30-minute granularity. -/
theorem currentInterval_truncation_witness :
    currentInterval 4102444800123456789 1800000000000 =
      (4102444800123456789 - 4102444800123456789 % 1800000000000,
       4102444800123456789 - 4102444800123456789 % 1800000000000 + 1800000000000) ∧
    (currentInterval 4102444800123456789 1800000000000).1 % 1800000000000 = 0 ∧
    (currentInterval 4102444800123456789 1800000000000).1 ≤ 4102444800123456789 ∧
    4102444800123456789 < (currentInterval 4102444800123456789 1800000000000).1 + 1800000000000 ∧
    (currentInterval 4102444800123456789 1800000000000).2 -
      (currentInterval 4102444800123456789 1800000000000).1 = 1800000000000 :=
  currentInterval_truncation 4102444800123456789 "PT30M" 1800000000000 rfl

/-! Claim C5. -/

/-- Claim C5: for a single tracked queue and an aggregate response holding
exactly one `tAnswered` metric (sum 300, max 120, count 5) for the key
`(Q1, voice)` plus an empty observation response, the reconciled row for
that key has exactly `tAnswered = 300`, `mtAnswered = 120`, `nAnswered = 5`
and every other field zero; the chat and email rows are all-zero. -/
theorem tAnswered_triplet_dispatch :
    reconcile ["Q1"] aggAnswered emptyObs =
      .ok [ KeyRow.mk "Q1" "voice" { tAnswered := 300, mtAnswered := 120, nAnswered := 5 },
            KeyRow.mk "Q1" "chat" {}, KeyRow.mk "Q1" "email" {} ] := rfl

/-! Claim C6. -/

/-- Claim C6, counterexample: the configured frequency 60.5 seconds lies
outside the range 1 to 60, yet configuration validation accepts it (the Go
code truncates the float to the int 60 before the range check). -/
theorem frequency_fraction_accepted_ce :
    loadAppConfigValidate "PT30M" (121 / 2) = none ∧ (60 : ℚ) < 121 / 2 := by
  constructor
  · norm_num [loadAppConfigValidate, goInt, supportedGranularity]
  · norm_num

/-- Helper: the granularity map misses exactly the unsupported tokens. -/
theorem supportedGranularity_isNone_iff (g : String) :
    (supportedGranularity g).isNone = true ↔
      ¬(g = "PT30M" ∨ g = "PT60M" ∨ g = "PT1H") := by
  unfold supportedGranularity
  split_ifs with h1 h2 h3 <;> simp_all

/-- Claim C6 (amended): configuration validation reports an error exactly
when the granularity token is not one of PT30M, PT60M, PT1H, or the integer
truncation of the configured frequency is outside 1..60 (so fractional
frequencies strictly between 60 and 61 are accepted, and those strictly
between 0 and 1 are rejected); any validation error makes `main` return
before the polling loop is started. -/
theorem loadAppConfig_validation_spec (g : String) (f : ℚ)
    (dbOpenOk dbPingOk loginOk prepareOk : Bool) :
    ((loadAppConfigValidate g f).isSome ↔
      (¬(g = "PT30M" ∨ g = "PT60M" ∨ g = "PT1H") ∨ goInt f ≤ 0 ∨ goInt f > 60)) ∧
    ((loadAppConfigValidate g f).isSome →
      mainReachesPollingLoop g f dbOpenOk dbPingOk loginOk prepareOk = false) := by
  have hiff := supportedGranularity_isNone_iff g
  constructor
  · by_cases hg : (supportedGranularity g).isNone = true
    · simp [loadAppConfigValidate, hg, hiff.mp hg]
    · have hgood : g = "PT30M" ∨ g = "PT60M" ∨ g = "PT1H" := by
        by_contra hc
        exact hg (hiff.mpr hc)
      by_cases hf : goInt f ≤ 0 ∨ goInt f > 60
      · simp [loadAppConfigValidate, hg, hf, hgood]
      · simp [loadAppConfigValidate, hg, hf, hgood]
  · intro hsome
    obtain ⟨v, hv⟩ := Option.isSome_iff_exists.mp hsome
    simp [mainReachesPollingLoop, hv]

/-- Claim C6, witness: an unsupported granularity token produces a
validation error and the polling loop is not reached. -/
theorem loadAppConfig_validation_spec_witness :
    mainReachesPollingLoop "BAD" 5 true true true true = false ∧
    ((loadAppConfigValidate "BAD" 5).isSome ↔
      (¬("BAD" = "PT30M" ∨ "BAD" = "PT60M" ∨ "BAD" = "PT1H") ∨
        goInt 5 ≤ 0 ∨ goInt 5 > 60)) :=
  ⟨(loadAppConfig_validation_spec "BAD" 5 true true true true).2 rfl,
   (loadAppConfig_validation_spec "BAD" 5 true true true true).1⟩

/-! Claim C7. -/

/-- Claim C7, counterexample: the grouping matching `(Q1, voice)` holds two
data buckets, both carrying `tAnswered`; the reconciled row carries the
SECOND bucket's stats (sum 999, max 1, count 1), not the first bucket's
(sum 300) — so metrics in later buckets of the same grouping do affect the
row, contrary to the claim. -/
theorem laterBucket_affects_row_ce :
    buildRow "Q1" "voice" aggTwoBuckets emptyObs =
      .ok { tAnswered := 999, mtAnswered := 1, nAnswered := 1 } ∧
    decide ((999 : ℚ) = 300) = false := ⟨rfl, rfl⟩

/-- Claim C7 (amended): every data bucket of the first matching grouping is
processed, in order — the scan of a matching grouping equals processing its
first buckets and then its later buckets on top of the intermediate row, so
later buckets do affect the produced row (a metric repeated in a later
bucket overwrites the earlier value). -/
theorem allBuckets_of_first_grouping_processed (q m : String)
    (ds1 ds2 : List AggDataBucket) (rest : List AggResult) (row : StatRow) :
    scanAgg q m row
        ({ group := { queueID := q, mediaType := m }, data := ds1 ++ ds2 } :: rest) =
      (applyAggData row ds1).bind (fun r => applyAggData r ds2) := by
  have h1 : scanAgg q m row
      ({ group := { queueID := q, mediaType := m }, data := ds1 ++ ds2 } :: rest) =
      applyAggData row (ds1 ++ ds2) := by
    simp [scanAgg]
  rw [h1, applyAggData_append]

/-! Claim C8. -/

/-- Claim C8: in both the aggregate and the observation scan, the first
grouping whose key matches the tracked key wins — its data is dispatched
into the row — and every grouping after it (matching or not) is ignored:
appending anything after a result list that already contains a match leaves
the scan's outcome unchanged. -/
theorem firstMatchingGroupingWins :
    (∀ (q m : String) (row : StatRow) (xs ys : List AggResult),
      (∃ r ∈ xs, r.group.queueID = q ∧ r.group.mediaType = m) →
      scanAgg q m row (xs ++ ys) = scanAgg q m row xs) ∧
    (∀ (q m : String) (row : StatRow) (xs ys : List ObsResult),
      (∃ r ∈ xs, r.group.queueID = q ∧ r.group.mediaType = m) →
      scanObs q m row (xs ++ ys) = scanObs q m row xs) ∧
    (∀ (q m : String) (row : StatRow) (r : AggResult) (rest : List AggResult),
      r.group.queueID = q ∧ r.group.mediaType = m →
      scanAgg q m row (r :: rest) = applyAggData row r.data) ∧
    (∀ (q m : String) (row : StatRow) (r : ObsResult) (rest : List ObsResult),
      r.group.queueID = q ∧ r.group.mediaType = m →
      scanObs q m row (r :: rest) = applyMetricList applyObsMetric row r.data) := by
  refine ⟨?_, ?_, ?_, ?_⟩
  · intro q m row xs ys h
    exact scanAgg_append_of_match q m xs ys h row
  · intro q m row xs ys h
    exact scanObs_append_of_match q m xs ys h row
  · intro q m row r rest h
    simp only [scanAgg, if_pos h]
  · intro q m row r rest h
    simp only [scanObs, if_pos h]

/-- Claim C8, witness: appending a second matching grouping after a first
one changes neither the aggregate nor the observation scan at a concrete
key. -/
theorem firstMatchingGroupingWins_witness :
    scanAgg "Q1" "voice" {} ([aggResVoiceEmpty] ++ [aggResVoiceOffered]) =
      scanAgg "Q1" "voice" {} [aggResVoiceEmpty] ∧
    scanObs "Q1" "voice" {} ([obsResVoiceEmpty] ++ [obsResVoiceWaiting]) =
      scanObs "Q1" "voice" {} [obsResVoiceEmpty] :=
  ⟨firstMatchingGroupingWins.1 "Q1" "voice" {} [aggResVoiceEmpty] [aggResVoiceOffered]
      ⟨aggResVoiceEmpty, by simp, rfl, rfl⟩,
   firstMatchingGroupingWins.2.1 "Q1" "voice" {} [obsResVoiceEmpty] [obsResVoiceWaiting]
      ⟨obsResVoiceEmpty, by simp, rfl, rfl⟩⟩

/-! Claim C9. -/

/-- Claim C9 (amended): query building is a total function that never
truncates: for every list of tracked queue IDs — of any length — the built
filter is the AND of the media-type clause (3 predicates) and a queue-ID
clause holding exactly one predicate per tracked queue ID, all of them, in
order; the observation query reuses the identical filter.  No
predicate-count limit is checked locally, so an over-limit list is sent in
full and any rejection comes back from the provider as a query error. -/
theorem builtFilter_contains_all_queueIDs (startS endS g : String)
    (queues : List String) :
    (buildAggQuery startS endS g queues).filter.clauses =
      [ AnalyticsQueryClause.mk "or"
          (supportedMediaType.map (AnalyticsQueryPredicate.mk "mediaType")),
        AnalyticsQueryClause.mk "or"
          (queues.map (AnalyticsQueryPredicate.mk "queueId")) ] ∧
    ((buildAggQuery startS endS g queues).filter.clauses.map
        (fun c => c.predicates.length)) = [3, queues.length] ∧
    (buildObsQuery startS endS g queues).filter =
      (buildAggQuery startS endS g queues).filter := by
  refine ⟨?_, ?_, rfl⟩
  · simp [buildAggQuery, appendPredicates_eq_map]
  · simp [buildAggQuery, appendPredicates_eq_map, supportedMediaType]

/-- Claim C9, counterexample: with 10000 tracked queue IDs — more than any
provider predicate limit — query building still succeeds and produces a
queue-ID clause with all 10000 predicates, rather than failing with an
error. -/
theorem builtFilter_no_limit_ce :
    ((buildAggQuery "2016-06-08T00:00:00+0800" "2016-06-09T00:00:00+0800" "PT30M"
        (List.replicate 10000 "q")).filter.clauses.map
        (fun c => c.predicates.length)) = [3, 10000] ∧
    (List.replicate 10000 "q").length = 10000 := by
  constructor
  · simp only [buildAggQuery, List.map_cons, List.map_nil, appendPredicates_eq_map,
      List.length_map, List.length_replicate, supportedMediaType, List.length_cons,
      List.length_nil]
  · simp only [List.length_replicate]

/-! Claim C10. -/

/-- Claim C10 (amended): the tokens PT60M and PT1H map to the identical
60-minute duration, so configuration validation and the interval
computation behave identically for the two tokens; but the cycle's outgoing
aggregate query carries the configured token verbatim in its granularity
field, so the built queries differ textually between the two tokens (the
filters are identical). -/
theorem granularityTokens_equivalence :
    supportedGranularity "PT60M" = some (60 * nsPerMinute) ∧
    supportedGranularity "PT1H" = some (60 * nsPerMinute) ∧
    (∀ f : ℚ, loadAppConfigValidate "PT60M" f = loadAppConfigValidate "PT1H" f) ∧
    (∀ t : ℕ, currentInterval t ((supportedGranularity "PT60M").getD 0) =
      currentInterval t ((supportedGranularity "PT1H").getD 0)) ∧
    (∀ startS endS : String, ∀ queues : List String,
      (buildAggQuery startS endS "PT60M" queues).filter =
        (buildAggQuery startS endS "PT1H" queues).filter ∧
      (buildAggQuery startS endS "PT60M" queues).granularity = "PT60M" ∧
      (buildAggQuery startS endS "PT1H" queues).granularity = "PT1H") :=
  ⟨rfl, rfl, fun _ => rfl, fun _ => rfl, fun _ _ _ => ⟨rfl, rfl, rfl⟩⟩

/-- Claim C10, counterexample: the two aggregate queries built from
configurations differing only in the granularity token are not identical —
their granularity fields carry the distinct configured tokens — so the rest
of the cycle does not behave identically in the two configurations. -/
theorem granularityToken_in_query_ce :
    ((buildAggQuery "s" "e" "PT60M" ["Q1"]).granularity ==
      (buildAggQuery "s" "e" "PT1H" ["Q1"]).granularity) = false ∧
    (buildAggQuery "s" "e" "PT60M" ["Q1"]).granularity = "PT60M" ∧
    (buildAggQuery "s" "e" "PT1H" ["Q1"]).granularity = "PT1H" := ⟨rfl, rfl, rfl⟩

end WallStats
